import Mathlib

set_option linter.unusedVariables false

/-!
Shallow embedding of `src/library_management.py`.

The program manages a list of `Book` records persisted to a JSON file.
The vocabulary of the spec maps to the code as follows: Record = `Book`,
Catalog = `Library`, Status Available = the string literal "в наличии",
Status CheckedOut = "выдана".

Python values that can appear in a book field after `json.load` are
modelled by `Json` (integer-valued numbers, strings, booleans, null,
arrays, objects).  The backing store is modelled at the parsed-value
level: `json.dump` followed by `json.load` reproduces the structured
value exactly for these value forms, so the text layer is abstracted to
`Store.parsed`; a missing file is `Store.missing` (FileNotFoundError on
open) and syntactically invalid content is `Store.unparsable`
(json.JSONDecodeError on json.load).
-/

/-- Parsed JSON values (numbers restricted to integers, the only numeric
form the program itself produces; `id` and `year` are specified as
integers). -/
inductive Json where
  | jnum (n : Int)
  | jstr (s : String)
  | jbool (b : Bool)
  | jnull
  | jarr (items : List Json)
  | jobj (fields : List (String × Json))

/-- Python exceptions that can escape the load path: `KeyError` from
`data["k"]` on a dict missing key k, `TypeError` from subscripting or
iterating a value of the wrong type (and from `max`/`+` on non-integer
ids in `add_book`). -/
inductive PyErr where
  | keyError (key : String)
  | typeError

/-- One catalog entry, mirroring `Book.__init__`: the constructor stores
whatever values it is given, so after loading arbitrary JSON the fields
can hold any `Json` value (no type validation in the source). -/
structure Book where
  book_id : Json
  title : Json
  author : Json
  year : Json
  status : Json

/-- `Book.to_dict`: the dict `{"id": .., "title": .., "author": ..,
"year": .., "status": ..}` (written as a key/value list). -/
def to_dict (b : Book) : Json :=
  .jobj [("id", b.book_id), ("title", b.title), ("author", b.author),
         ("year", b.year), ("status", b.status)]

/-- Lookup in a JSON object as `json.load` builds the Python dict:
a duplicated key keeps the last occurrence. -/
def dictGet (fields : List (String × Json)) (k : String) : Option Json :=
  match fields with
  | [] => none
  | (k2, v) :: rest =>
    match dictGet rest k with
    | some v2 => some v2
    | none => if k2 == k then some v else none

/-- `Book.from_dict`: `Book(data["id"], data["title"], data["author"],
data["year"], data["status"])`.  Python evaluates the arguments left to
right, so the first absent key raises its `KeyError`; subscripting a
non-dict with a string key raises `TypeError`. -/
def from_dict (data : Json) : Except PyErr Book :=
  match data with
  | .jobj fields =>
    match dictGet fields "id" with
    | none => .error (.keyError "id")
    | some i =>
      match dictGet fields "title" with
      | none => .error (.keyError "title")
      | some t =>
        match dictGet fields "author" with
        | none => .error (.keyError "author")
        | some a =>
          match dictGet fields "year" with
          | none => .error (.keyError "year")
          | some y =>
            match dictGet fields "status" with
            | none => .error (.keyError "status")
            | some s => .ok ⟨i, t, a, y, s⟩
  | _ => .error .typeError

/-- The backing store, at the level the program observes it:
the file is absent, present but not syntactically valid JSON, or
parses to a JSON value. -/
inductive Store where
  | missing
  | unparsable
  | parsed (value : Json)

/-- The list comprehension `[Book.from_dict(book) for book in data]`:
the first exception raised by `from_dict` aborts the whole load. -/
def loadList (l : List Json) : Except PyErr (List Book) :=
  match l with
  | [] => .ok []
  | j :: rest =>
    match from_dict j with
    | .error e => .error e
    | .ok b =>
      match loadList rest with
      | .error e => .error e
      | .ok bs => .ok (b :: bs)

/-- `Library.load_books`: `FileNotFoundError` and `json.JSONDecodeError`
are caught and produce the empty list; any other exception propagates.
Iterating the loaded value follows Python semantics: a JSON array
iterates its items, a string iterates its characters (each a 1-character
string), a dict iterates its keys, and numbers/booleans/null raise
`TypeError`. -/
def load_books (s : Store) : Except PyErr (List Book) :=
  match s with
  | .missing => .ok []
  | .unparsable => .ok []
  | .parsed j =>
    match j with
    | .jarr items => loadList items
    | .jstr str => loadList (str.data.map (fun c => Json.jstr (String.singleton c)))
    | .jobj fields => loadList (fields.map (fun kv => Json.jstr kv.1))
    | _ => .error .typeError

/-- `Library` state: the in-memory book list plus the backing store it
owns (the source keeps a `filename` and the file lives on disk; here the
store content is carried directly). -/
structure Library where
  books : List Book
  store : Store

/-- `Library.__init__`: set an empty book list, then `load_books()`;
an uncaught exception from the load aborts construction. -/
def Library.init (s : Store) : Except PyErr Library :=
  match load_books s with
  | .error e => .error e
  | .ok bs => .ok ⟨bs, s⟩

/-- `Library.save_books`: overwrite the store with the JSON array of
`to_dict` of every book, in list order. -/
def save_books (lib : Library) : Library :=
  ⟨lib.books, .parsed (.jarr (lib.books.map to_dict))⟩

/-- Message printed by `add_book`. -/
def msgAdded (i : Int) : String :=
  "Книга с ID " ++ toString i ++ " успешно добавлена."

/-- Message printed by `delete_book` on success. -/
def msgDeleted (i : Int) : String :=
  "Книга с ID " ++ toString i ++ " успешно удалена."

/-- Message printed by `delete_book` and `update_status` when no book has
the given id. -/
def msgNotFound (i : Int) : String :=
  "Книга с ID " ++ toString i ++ " не найдена."

/-- Message printed by `update_status` on an invalid status value. -/
def msgInvalidStatus : String :=
  "Некорректный статус. Используйте \x27в наличии\x27 или \x27выдана\x27."

/-- Message printed by `update_status` on success. -/
def msgUpdated (i : Int) : String :=
  "Статус книги с ID " ++ toString i ++ " успешно обновлён."

/-- Message printed by `search_books` when the result list is empty. -/
def msgNoResults : String := "Книги по вашему запросу не найдены."

/-- Message printed by `display_books` on an empty catalog. -/
def msgEmptyLib : String := "Библиотека пуста."

/-- Python `str.lower`, per character, for the character ranges the
program can produce (ASCII and the Russian alphabet used in the status
labels); other characters are left unchanged. -/
def pyLowerChar (c : Char) : Char :=
  if c ≥ 'A' && c ≤ 'Z' then Char.ofNat (c.toNat + 32)
  else if c ≥ 'А' && c ≤ 'Я' then Char.ofNat (c.toNat + 32)
  else if c = 'Ё' then 'ё'
  else c

/-- Python `str.lower` on a string. -/
def pyLower (s : String) : String := ⟨s.data.map pyLowerChar⟩

/-- Hexadecimal digit, for Python escape sequences. -/
def hexDigit (n : Nat) : Char :=
  if n < 10 then Char.ofNat (48 + n) else Char.ofNat (87 + n)

/-- Escaping of one character inside a Python string repr quoted with
quote character `q` (backslash, the quote, and control characters). -/
def pyEscChar (q : Char) (c : Char) : String :=
  if c = '\\' then "\\\\"
  else if c = q then "\\" ++ String.singleton q
  else if c = '\n' then "\\n"
  else if c = '\r' then "\\r"
  else if c = '\t' then "\\t"
  else if c.toNat < 32 then
    "\\x" ++ String.singleton (hexDigit (c.toNat / 16)) ++ String.singleton (hexDigit (c.toNat % 16))
  else String.singleton c

/-- Python `repr` of a string: single-quoted, or double-quoted when the
string contains a single quote but no double quote. -/
def pyReprStr (s : String) : String :=
  let q : Char := if s.contains (Char.ofNat 39) && !(s.contains (Char.ofNat 34))
    then Char.ofNat 34 else Char.ofNat 39
  String.singleton q ++ String.join (s.data.map (pyEscChar q)) ++ String.singleton q

mutual

/-- Python `repr` of a loaded JSON value (used by `str` on containers). -/
def pyRepr (j : Json) : String :=
  match j with
  | .jnum n => toString n
  | .jstr s => pyReprStr s
  | .jbool b => if b then "True" else "False"
  | .jnull => "None"
  | .jarr items => "[" ++ pyReprList items ++ "]"
  | .jobj fields => "\x7b" ++ pyReprObj fields ++ "\x7d"

/-- Comma-separated reprs of list items. -/
def pyReprList (l : List Json) : String :=
  match l with
  | [] => ""
  | [j] => pyRepr j
  | j :: rest => pyRepr j ++ ", " ++ pyReprList rest

/-- Comma-separated `key: value` reprs of dict entries. -/
def pyReprObj (l : List (String × Json)) : String :=
  match l with
  | [] => ""
  | [(k, v)] => pyReprStr k ++ ": " ++ pyRepr v
  | (k, v) :: rest => pyReprStr k ++ ": " ++ pyRepr v ++ ", " ++ pyReprObj rest

end

/-- Python `str` of a loaded JSON value: a string is itself; numbers,
booleans and `None` print their canonical form; containers print their
repr. -/
def pyStr (j : Json) : String :=
  match j with
  | .jstr s => s
  | .jnum n => toString n
  | .jbool b => if b then "True" else "False"
  | .jnull => "None"
  | _ => pyRepr j

/-- Names with two leading underscores.  Every special attribute that
Python attribute lookup inherits from `object` (and the class-body
attributes such as `__module__`) is named `__...__`; the model
conservatively treats every name with two leading underscores as such a
special attribute — no theorem below touches these names. -/
def dunderName (key : String) : Bool :=
  match key.data with
  | c1 :: c2 :: _ => c1 == '_' && c2 == '_'
  | _ => false

/-- Names `getattr` resolves to class attributes of `Book` before the
default applies: the method `to_dict`, the static method `from_dict`,
and the inherited double-underscore special attributes. -/
def classAttrName (key : String) : Bool :=
  key == "to_dict" || key == "from_dict" || dunderName key

/-- `getattr(book, key, "")` for names that do not resolve to a class
attribute: the five instance attributes of `Book`, or the default empty
string when the object has no such attribute at all.  For class
attributes (see `classAttrName`) `getattr` instead returns a bound
method or similar object, which is not `Json` data; `matchesKV` handles
those names. -/
def getattrB (b : Book) (key : String) : Json :=
  if key == "book_id" then b.book_id
  else if key == "title" then b.title
  else if key == "author" then b.author
  else if key == "year" then b.year
  else if key == "status" then b.status
  else .jstr ""

/-- The filter test in `search_books`:
`str(getattr(book, key, "")).lower() == str(value).lower()` (the caller
passes string values, so `str(value)` is `value`).  When the key names a
class attribute, `str` of the resolved bound method (or similar object)
is text embedding the object identity — a memory address — which is
outside this model and never coincides with a query derived from
catalog data; the model fixes that comparison to false. -/
def matchesKV (b : Book) (key value : String) : Bool :=
  if classAttrName key then false
  else pyLower (pyStr (getattrB b key)) == pyLower value

/-- Result of `display_books`: the printed lines (the method mutates
nothing and returns None). -/
structure DisplayResult where
  lib : Library
  printed : List String

/-- Result of `search_books`: `results` is the list the method computes
and displays; the method itself mutates nothing and returns None. -/
structure SearchResult where
  lib : Library
  printed : List String
  results : List Book

/-- Result of `add_book`: `ret` is the Python return value — the method
has no return statement, so it returns None (`none`). -/
structure AddResult where
  lib : Library
  printed : List String
  ret : Option Book

/-- Result of `delete_book`: `ret` is the Python return value — both
paths return None (`none`). -/
structure DeleteResult where
  lib : Library
  printed : List String
  ret : Option Bool

/-- Result of `update_status` (returns None; the outcome is observable
only through the printed message and the state). -/
structure UpdateResult where
  lib : Library
  printed : List String

/-- One line of `display_books` output. -/
def displayLine (b : Book) : String :=
  "ID: " ++ pyStr b.book_id ++ ", Название: " ++ pyStr b.title ++
  ", Автор: " ++ pyStr b.author ++ ", Год: " ++ pyStr b.year ++
  ", Статус: " ++ pyStr b.status

/-- `Library.display_books`: `books = books or self.books` falls back to
the catalog when the argument is None or an empty list (Python
truthiness); prints the empty-library message or one line per book. -/
def display_books (lib : Library) (arg : Option (List Book)) : DisplayResult :=
  let bs := match arg with
    | none => lib.books
    | some l => if l.isEmpty then lib.books else l
  ⟨lib, if bs.isEmpty then [msgEmptyLib] else bs.map displayLine⟩

/-- `Library.search_books`: successively filters the book list by every
keyword criterion, then displays the results, or prints the no-results
message when the filtered list is empty. -/
def search_books (lib : Library) (kwargs : List (String × String)) : SearchResult :=
  let results := kwargs.foldl (fun acc kv => acc.filter (fun b => matchesKV b kv.1 kv.2)) lib.books
  if results.isEmpty then ⟨lib, [msgNoResults], results⟩
  else ⟨lib, (display_books lib (some results)).printed, results⟩

/-- A book id as the integer Python arithmetic and comparison see it:
`True`/`False` count as 1/0; any other non-integer value has no integer
reading (comparisons yield False, `max`/`+` raise `TypeError`). -/
def idAsInt (j : Json) : Option Int :=
  match j with
  | .jnum n => some n
  | .jbool b => some (if b then 1 else 0)
  | _ => none

/-- All book ids as integers, or `none` if some id is not an integer. -/
def idsOf (bs : List Book) : Option (List Int) :=
  match bs with
  | [] => some []
  | b :: rest =>
    match idAsInt b.book_id, idsOf rest with
    | some n, some ns => some (n :: ns)
    | _, _ => none

/-- Python `max(ids, default=0)`: 0 on the empty list, otherwise the
fold of binary max over the elements. -/
def pyMax (ns : List Int) : Int :=
  match ns with
  | [] => 0
  | n :: rest => rest.foldl max n

/-- `Library.add_book`: computes
`max((book.book_id for book in self.books), default=0) + 1`, appends a
`Book` with the default status "в наличии", saves, prints the message
with the new id, and returns None.  A non-integer id in the catalog
makes the `max`/`+ 1` computation raise `TypeError`. -/
def add_book (lib : Library) (title author : String) (year : Int) :
    Except PyErr AddResult :=
  match idsOf lib.books with
  | none => .error .typeError
  | some ns =>
    let new_id := pyMax ns + 1
    let new_book : Book := ⟨.jnum new_id, .jstr title, .jstr author, .jnum year, .jstr "в наличии"⟩
    .ok ⟨save_books ⟨lib.books ++ [new_book], lib.store⟩, [msgAdded new_id], none⟩

/-- Python `book.book_id == book_id` with an integer right-hand side:
True exactly when the stored id reads as that integer. -/
def idEq (j : Json) (i : Int) : Bool :=
  match idAsInt j with
  | some n => n == i
  | none => false

/-- `self.books.remove(book)` for the first book matching the id: remove
the first matching element, keep the rest in place. -/
def eraseFirstId (bs : List Book) (i : Int) : List Book :=
  match bs with
  | [] => []
  | b :: rest => if idEq b.book_id i then rest else b :: eraseFirstId rest i

/-- `Library.delete_book`: scan for the first book with the id; if found,
remove it, save, print the success message; otherwise print the
not-found message and change nothing.  Returns None on both paths. -/
def delete_book (lib : Library) (i : Int) : DeleteResult :=
  if lib.books.any (fun b => idEq b.book_id i) then
    ⟨save_books ⟨eraseFirstId lib.books i, lib.store⟩, [msgDeleted i], none⟩
  else ⟨lib, [msgNotFound i], none⟩

/-- Outcome of the `update_status` scan loop. -/
inductive UpdOut where
  | updated
  | invalid
  | notFound

/-- `status in ["в наличии", "выдана"]`. -/
def validStatus (st : String) : Bool :=
  st == "в наличии" || st == "выдана"

/-- The scan loop of `update_status`: at the first book with the id,
either set its status (valid value) or leave the list unchanged
(invalid value); report not-found when the loop finishes. -/
def updLoop (bs : List Book) (i : Int) (st : String) : List Book × UpdOut :=
  match bs with
  | [] => ([], .notFound)
  | b :: rest =>
    if idEq b.book_id i then
      if validStatus st then
        (⟨b.book_id, b.title, b.author, b.year, .jstr st⟩ :: rest, .updated)
      else (b :: rest, .invalid)
    else
      let r := updLoop rest i st
      (b :: r.1, r.2)

/-- `Library.update_status`: the id is looked up first; only when a book
with the id exists is the status value validated.  Saves only after a
successful update; prints one of the three messages; returns None. -/
def update_status (lib : Library) (i : Int) (st : String) : UpdateResult :=
  match updLoop lib.books i st with
  | (bs, .updated) => ⟨save_books ⟨bs, lib.store⟩, [msgUpdated i]⟩
  | (_, .invalid) => ⟨lib, [msgInvalidStatus]⟩
  | (_, .notFound) => ⟨lib, [msgNotFound i]⟩

/-- Well-formed record fields in the sense of the spec data model:
integer id and year, string title, author and status. -/
def Book.wfb (b : Book) : Bool :=
  (match b.book_id with | .jnum _ => true | _ => false) &&
  (match b.title with | .jstr _ => true | _ => false) &&
  (match b.author with | .jstr _ => true | _ => false) &&
  (match b.year with | .jnum _ => true | _ => false) &&
  (match b.status with | .jstr _ => true | _ => false)

/-- Modelled from the spec: the fixed dispatch table for the recognized
searchable fields {title, author, year, status} (§4.2 search); only ever
applied to one of those four names. -/
def specField (b : Book) (f : String) : Json :=
  if f == "title" then b.title
  else if f == "author" then b.author
  else if f == "year" then b.year
  else if f == "status" then b.status
  else .jnull

/-- The store holds exactly the serialization of the current book list
(the state right after any `save_books`). -/
def persisted (lib : Library) : Prop :=
  lib.store = .parsed (.jarr (lib.books.map to_dict))

/-- The freshly constructed empty catalog (no existing store data). -/
def emptyLib : Library := ⟨[], .missing⟩

/-- States reachable from an empty catalog by any sequence of add,
delete and update-status operations. -/
inductive Reachable : Library → Prop where
  | start : Reachable emptyLib
  | add (lib : Library) (t a : String) (y : Int) (r : AddResult) :
      Reachable lib → add_book lib t a y = .ok r → Reachable r.lib
  | del (lib : Library) (i : Int) : Reachable lib → Reachable (delete_book lib i).lib
  | upd (lib : Library) (i : Int) (st : String) :
      Reachable lib → Reachable (update_status lib i st).lib

/-- Concrete test book. -/
def bookW : Book :=
  ⟨.jnum 1, .jstr "War and Peace", .jstr "Tolstoy", .jnum 1869, .jstr "в наличии"⟩

/-- Concrete one-book catalog. -/
def libW : Library := ⟨[bookW], .missing⟩

/-- Concrete book whose id is 5 with no predecessor ids. -/
def book5 : Book :=
  ⟨.jnum 5, .jstr "Анна Каренина", .jstr "Толстой", .jnum 1877, .jstr "в наличии"⟩

/-- Concrete catalog holding only the id-5 book. -/
def lib5 : Library := ⟨[book5], .missing⟩

/-! Helper lemmas about the embedded operations. -/

/-- Decoding the encoding of any book restores the book. -/
theorem from_dict_to_dict (b : Book) : from_dict (to_dict b) = .ok b := rfl

/-- Loading a serialized book list restores the list. -/
theorem loadList_to_dict (bs : List Book) : loadList (bs.map to_dict) = .ok bs := by
  induction bs with
  | nil => rfl
  | cons b rest ih => simp [List.map_cons, loadList, from_dict_to_dict, ih]

/-- The result list of `search_books` is the fold of filters. -/
theorem search_books_results (lib : Library) (kw : List (String × String)) :
    (search_books lib kw).results =
      kw.foldl (fun acc kv => acc.filter (fun b => matchesKV b kv.1 kv.2)) lib.books := by
  cases h : (kw.foldl (fun acc kv => acc.filter (fun b => matchesKV b kv.1 kv.2)) lib.books).isEmpty <;>
    simp [search_books, h]

/-- `search_books` leaves the library state untouched. -/
theorem search_books_lib (lib : Library) (kw : List (String × String)) :
    (search_books lib kw).lib = lib := by
  cases h : (kw.foldl (fun acc kv => acc.filter (fun b => matchesKV b kv.1 kv.2)) lib.books).isEmpty <;>
    simp [search_books, h]

/-- Sequential filtering equals filtering by the conjunction of all criteria. -/
theorem foldl_filter (kw : List (String × String)) (bs : List Book) :
    kw.foldl (fun acc kv => acc.filter (fun b => matchesKV b kv.1 kv.2)) bs =
      bs.filter (fun b => kw.all (fun kv => matchesKV b kv.1 kv.2)) := by
  induction kw generalizing bs with
  | nil => simp
  | cons kv rest ih =>
    rw [List.foldl_cons, ih, List.filter_filter]
    apply List.filter_congr
    intro b hb
    simp [List.all_cons, Bool.and_comm]

/-- Any element is bounded by the max fold. -/
theorem le_foldl_max (rest : List Int) (n x : Int) (h : x ≤ n ∨ x ∈ rest) :
    x ≤ rest.foldl max n := by
  induction rest generalizing n with
  | nil =>
    rcases h with h | h
    · exact h
    · cases h
  | cons a as ih =>
    rw [List.foldl_cons]
    rcases h with h | h
    · exact ih (max n a) (Or.inl (le_trans h (le_max_left n a)))
    · rcases List.mem_cons.mp h with rfl | h2
      · exact ih (max n x) (Or.inl (le_max_right n x))
      · exact ih (max n a) (Or.inr h2)

/-- Every id is at most the Python max of the ids. -/
theorem mem_le_pyMax (ns : List Int) (x : Int) (h : x ∈ ns) : x ≤ pyMax ns := by
  cases ns with
  | nil => cases h
  | cons n rest =>
    rcases List.mem_cons.mp h with rfl | h2
    · exact le_foldl_max rest x x (Or.inl le_rfl)
    · exact le_foldl_max rest n x (Or.inr h2)

/-- The max fold lands on one of the elements. -/
theorem foldl_max_mem (rest : List Int) (n : Int) : rest.foldl max n ∈ n :: rest := by
  induction rest generalizing n with
  | nil => simp
  | cons a as ih =>
    rw [List.foldl_cons]
    rcases List.mem_cons.mp (ih (max n a)) with h | h
    · rw [h]
      rcases max_choice n a with h2 | h2 <;> rw [h2] <;> simp
    · simp [h]

/-- On a nonempty id list, the Python max is one of the ids. -/
theorem pyMax_mem (ns : List Int) (h : ns ≠ []) : pyMax ns ∈ ns := by
  cases ns with
  | nil => exact absurd rfl h
  | cons n rest => exact foldl_max_mem rest n

/-- When every stored id is the integer `jnum` of the matching entry of
`ns`, the id extraction succeeds with `ns`. -/
theorem idsOf_of_map (bs : List Book) (ns : List Int)
    (h : bs.map Book.book_id = ns.map Json.jnum) : idsOf bs = some ns := by
  induction bs generalizing ns with
  | nil =>
    cases ns with
    | nil => rfl
    | cons n ns2 => simp at h
  | cons b rest ih =>
    cases ns with
    | nil => simp at h
    | cons n ns2 =>
      simp only [List.map_cons, List.cons.injEq] at h
      obtain ⟨h1, h2⟩ := h
      unfold idsOf
      rw [h1, ih ns2 h2]
      rfl

/-- Computation of `add_book` on a catalog with integer ids. -/
theorem add_book_eq (lib : Library) (t a : String) (y : Int) (ns : List Int)
    (h : lib.books.map Book.book_id = ns.map Json.jnum) :
    add_book lib t a y =
      .ok ⟨save_books ⟨lib.books ++ [⟨.jnum (pyMax ns + 1), .jstr t, .jstr a, .jnum y, .jstr "в наличии"⟩], lib.store⟩,
           [msgAdded (pyMax ns + 1)], none⟩ := by
  unfold add_book
  rw [idsOf_of_map lib.books ns h]

/-- The update loop never changes the id column. -/
theorem updLoop_map_id (bs : List Book) (i : Int) (st : String) :
    ((updLoop bs i st).1).map Book.book_id = bs.map Book.book_id := by
  induction bs with
  | nil => rfl
  | cons b rest ih =>
    rw [updLoop]
    by_cases h : idEq b.book_id i = true
    · rw [if_pos h]
      by_cases h2 : validStatus st = true
      · rw [if_pos h2]
        rfl
      · rw [if_neg h2]
    · rw [if_neg h]
      simp [ih]

/-- The update loop passes over a prefix of non-matching books untouched. -/
theorem updLoop_skip (pre rest : List Book) (i : Int) (st : String)
    (h : ∀ b ∈ pre, idEq b.book_id i = false) :
    updLoop (pre ++ rest) i st = (pre ++ (updLoop rest i st).1, (updLoop rest i st).2) := by
  induction pre with
  | nil => simp
  | cons p ps ih =>
    have hp : idEq p.book_id i = false := h p (List.mem_cons_self p ps)
    rw [List.cons_append, updLoop, if_neg (by simp [hp])]
    simp [ih (fun b hb => h b (List.mem_cons_of_mem p hb))]

/-- The update loop at a matching head with a valid status. -/
theorem updLoop_found_valid (b : Book) (post : List Book) (i : Int) (st : String)
    (hb : idEq b.book_id i = true) (hv : validStatus st = true) :
    updLoop (b :: post) i st =
      (⟨b.book_id, b.title, b.author, b.year, .jstr st⟩ :: post, .updated) := by
  rw [updLoop, if_pos hb, if_pos hv]

/-- The update loop at a matching head with an invalid status. -/
theorem updLoop_found_invalid (b : Book) (post : List Book) (i : Int) (st : String)
    (hb : idEq b.book_id i = true) (hv : validStatus st = false) :
    updLoop (b :: post) i st = (b :: post, .invalid) := by
  rw [updLoop, if_pos hb, if_neg (by simp [hv])]

/-- The update loop over a list with no matching id. -/
theorem updLoop_notFound (bs : List Book) (i : Int) (st : String)
    (h : ∀ b ∈ bs, idEq b.book_id i = false) : updLoop bs i st = (bs, .notFound) := by
  induction bs with
  | nil => rfl
  | cons b rest ih =>
    rw [updLoop, if_neg (by simp [h b (List.mem_cons_self b rest)])]
    simp [ih (fun b2 hb => h b2 (List.mem_cons_of_mem b hb))]

/-- Removing the first match erases exactly the matching book. -/
theorem eraseFirstId_skip (pre post : List Book) (b : Book) (i : Int)
    (hpre : ∀ b2 ∈ pre, idEq b2.book_id i = false) (hb : idEq b.book_id i = true) :
    eraseFirstId (pre ++ b :: post) i = pre ++ post := by
  induction pre with
  | nil =>
    rw [List.nil_append, eraseFirstId, if_pos hb, List.nil_append]
  | cons p ps ih =>
    have hp : idEq p.book_id i = false := hpre p (List.mem_cons_self p ps)
    rw [List.cons_append, eraseFirstId, if_neg (by simp [hp]),
        ih (fun b2 hb2 => hpre b2 (List.mem_cons_of_mem p hb2)), List.cons_append]

/-- Deletion keeps the id column a sub-sequence of integer ids. -/
theorem eraseFirstId_ids (bs : List Book) (i : Int) (ns : List Int)
    (h : bs.map Book.book_id = ns.map Json.jnum) :
    ∃ ns2 : List Int, (eraseFirstId bs i).map Book.book_id = ns2.map Json.jnum ∧
      List.Sublist ns2 ns := by
  induction bs generalizing ns with
  | nil =>
    have hns : ns = [] := by
      cases ns with
      | nil => rfl
      | cons a b2 => simp at h
    subst hns
    exact ⟨[], rfl, List.Sublist.refl []⟩
  | cons b rest ih =>
    cases ns with
    | nil => simp at h
    | cons n ns2 =>
      simp only [List.map_cons, List.cons.injEq] at h
      obtain ⟨h1, h2⟩ := h
      rw [eraseFirstId]
      by_cases hb : idEq b.book_id i = true
      · rw [if_pos hb]
        exact ⟨ns2, h2, List.sublist_cons_self n ns2⟩
      · rw [if_neg hb]
        obtain ⟨ns3, h3, hsub⟩ := ih ns2 h2
        exact ⟨n :: ns3, by simp [h1, h3], hsub.cons₂ n⟩

/-- Invariant of every reachable catalog: the id column is a list of
integers with no duplicates. -/
theorem reachable_inv (lib : Library) (h : Reachable lib) :
    ∃ ns : List Int, lib.books.map Book.book_id = ns.map Json.jnum ∧ ns.Nodup := by
  induction h with
  | start => exact ⟨[], rfl, List.nodup_nil⟩
  | add lib2 t a y r hr heq ih =>
    obtain ⟨ns, hm, hn⟩ := ih
    have hval := add_book_eq lib2 t a y ns hm
    rw [heq] at hval
    have hr2 := Except.ok.inj hval
    refine ⟨ns ++ [pyMax ns + 1], ?_, ?_⟩
    · rw [hr2]
      simp [save_books, hm]
    · have hx : pyMax ns + 1 ∉ ns := fun hmem => by
        have := mem_le_pyMax ns _ hmem
        omega
      simp [List.nodup_append, hn, hx]
  | del lib2 i hr ih =>
    obtain ⟨ns, hm, hn⟩ := ih
    unfold delete_book
    by_cases hc : lib2.books.any (fun b => idEq b.book_id i) = true
    · rw [if_pos hc]
      obtain ⟨ns2, h2, hsub⟩ := eraseFirstId_ids lib2.books i ns hm
      exact ⟨ns2, by simpa [save_books] using h2, hsub.nodup hn⟩
    · rw [if_neg hc]
      exact ⟨ns, hm, hn⟩
  | upd lib2 i st hr ih =>
    obtain ⟨ns, hm, hn⟩ := ih
    unfold update_status
    rcases hu : updLoop lib2.books i st with ⟨bs2, o⟩
    have hmap := updLoop_map_id lib2.books i st
    rw [hu] at hmap
    simp only at hmap
    cases o
    · exact ⟨ns, by simpa [save_books] using hmap.trans hm, hn⟩
    · exact ⟨ns, hm, hn⟩
    · exact ⟨ns, hm, hn⟩

/-! Claim theorems. -/

/-- C1: for every catalog whose records have well-formed fields, calling
save and then constructing a fresh Catalog over the resulting store
reproduces the same record sequence — same ids, titles, authors, years
and statuses, in the same order. -/
theorem save_then_fresh_load_round_trip (lib : Library)
    (h : lib.books.all Book.wfb = true) :
    Library.init (save_books lib).store = .ok ⟨lib.books, (save_books lib).store⟩ := by
  show Library.init (.parsed (.jarr (lib.books.map to_dict))) = _
  simp only [Library.init, load_books, loadList_to_dict]
  rfl

/-- Witness for C1 at a concrete one-book catalog. -/
theorem save_then_fresh_load_round_trip_witness :
    libW.books.all Book.wfb = true ∧
    Library.init (save_books libW).store = .ok ⟨libW.books, (save_books libW).store⟩ :=
  ⟨rfl, save_then_fresh_load_round_trip libW rfl⟩

/-- C2 counterexample: a store holding the valid JSON list `[{}]` makes
catalog construction propagate a KeyError instead of recovering to an
empty catalog — only a missing file and syntactically invalid content
are caught. -/
theorem construct_propagates_keyerror :
    Library.init (.parsed (.jarr [.jobj []])) = .error (.keyError "id") ∧
    (Library.init (.parsed (.jarr [.jobj []]))).toOption = none := ⟨rfl, rfl⟩

/-- Loading a nonempty entry list never yields the empty book list: the
first entry either decodes or raises. -/
theorem loadList_cons_ne_ok_nil (j : Json) (rest : List Json) :
    loadList (j :: rest) ≠ .ok [] := by
  intro h
  unfold loadList at h
  rcases h1 : from_dict j with e | b <;> rw [h1] at h
  · cases h
  · rcases h2 : loadList rest with e2 | bs <;> rw [h2] at h
    · cases h
    · simp at h

/-- The load produces the empty book list exactly for a missing file,
unparsable content, or content parsing to an empty list, empty string or
empty dict (iterating the latter two yields no entries). -/
theorem load_books_ok_nil_iff (s : Store) :
    load_books s = .ok [] ↔
      (s = Store.missing ∨ s = Store.unparsable ∨ s = Store.parsed (.jarr []) ∨
       s = Store.parsed (.jstr "") ∨ s = Store.parsed (.jobj [])) := by
  constructor
  · intro h
    cases s with
    | missing => exact Or.inl rfl
    | unparsable => exact Or.inr (Or.inl rfl)
    | parsed j =>
      cases j with
      | jnum n => simp [load_books] at h
      | jbool b => simp [load_books] at h
      | jnull => simp [load_books] at h
      | jarr items =>
        cases items with
        | nil => exact Or.inr (Or.inr (Or.inl rfl))
        | cons j2 rest => exact absurd h (loadList_cons_ne_ok_nil j2 rest)
      | jstr str =>
        obtain ⟨l⟩ := str
        cases l with
        | nil => exact Or.inr (Or.inr (Or.inr (Or.inl rfl)))
        | cons c cs =>
          exact absurd h (loadList_cons_ne_ok_nil (Json.jstr (String.singleton c))
            (cs.map (fun c2 => Json.jstr (String.singleton c2))))
      | jobj fields =>
        cases fields with
        | nil => exact Or.inr (Or.inr (Or.inr (Or.inr rfl)))
        | cons kv rest =>
          exact absurd h (loadList_cons_ne_ok_nil (Json.jstr kv.1)
            (rest.map (fun kv2 => Json.jstr kv2.1)))
  · rintro (rfl | rfl | rfl | rfl | rfl) <;> rfl

/-- Construction yields the empty catalog exactly when the load yields
the empty book list. -/
theorem init_ok_nil_iff (s : Store) :
    Library.init s = .ok ⟨[], s⟩ ↔ load_books s = .ok [] := by
  constructor
  · intro h
    unfold Library.init at h
    rcases h2 : load_books s with e | bs <;> rw [h2] at h
    · cases h
    · have h3 : bs = [] := congrArg Library.books (Except.ok.inj h)
      rw [h3]
  · intro h
    unfold Library.init
    rw [h]

/-- C2 (amended): constructing a Catalog recovers to an empty record
sequence exactly when the store is missing, its content is not
syntactically valid JSON, or its content parses to an empty list, empty
string or empty dict (iterating the latter two yields no entries, so no
decode runs); on such an empty catalog a subsequent add works and
assigns id 1.  For every other store content, construction either
propagates an error (only FileNotFoundError and JSONDecodeError are
caught — e.g. a list holding an incomplete record object raises
KeyError) or yields a nonempty record sequence, so the original claim
that no store content can make construction fail is false. -/
theorem empty_catalog_recovery (s : Store) (t a : String) (y : Int) :
    (Library.init s = .ok ⟨[], s⟩ ↔
      s = Store.missing ∨ s = Store.unparsable ∨ s = Store.parsed (.jarr []) ∨
      s = Store.parsed (.jstr "") ∨ s = Store.parsed (.jobj [])) ∧
    add_book ⟨[], s⟩ t a y =
      .ok ⟨save_books ⟨[⟨.jnum 1, .jstr t, .jstr a, .jnum y, .jstr "в наличии"⟩], s⟩,
           [msgAdded 1], none⟩ :=
  ⟨(init_ok_nil_iff s).trans (load_books_ok_nil_iff s), rfl⟩

/-- Witness for C2 (amended): both directions of the characterization at
concrete stores, and the add assigning id 1 on the recovered catalog. -/
theorem empty_catalog_recovery_witness :
    Library.init Store.missing = .ok ⟨[], Store.missing⟩ ∧
    Library.init (Store.parsed (.jarr [.jobj []])) ≠
      .ok ⟨[], Store.parsed (.jarr [.jobj []])⟩ ∧
    add_book ⟨[], Store.missing⟩ "Чистый код" "Мартин" 2008 =
      .ok ⟨save_books ⟨[⟨.jnum 1, .jstr "Чистый код", .jstr "Мартин", .jnum 2008, .jstr "в наличии"⟩], Store.missing⟩,
           [msgAdded 1], none⟩ :=
  ⟨(empty_catalog_recovery Store.missing "x" "x" 0).1.mpr (Or.inl rfl),
   fun h => by
     rcases (empty_catalog_recovery (Store.parsed (.jarr [.jobj []])) "x" "x" 0).1.mp h with
       h2 | h2 | h2 | h2 | h2 <;> simp at h2,
   (empty_catalog_recovery Store.missing "Чистый код" "Мартин" 2008).2⟩

/-- C3 (amended): on a catalog with integer ids, add assigns
(max existing id, or 0 if empty) + 1, constructs the record with status
"в наличии" (Available), appends it at the end, calls save, and prints a
message carrying the assigned id — the method itself returns None, not
the created record.  The last three conjuncts pin `pyMax` down as the
maximum existing id, or 0 on the empty catalog. -/
theorem add_book_assigns_successor_of_max (lib : Library) (t a : String) (y : Int)
    (ns : List Int) (h : lib.books.map Book.book_id = ns.map Json.jnum) :
    add_book lib t a y =
      .ok ⟨save_books ⟨lib.books ++ [⟨.jnum (pyMax ns + 1), .jstr t, .jstr a, .jnum y, .jstr "в наличии"⟩], lib.store⟩,
           [msgAdded (pyMax ns + 1)], none⟩ ∧
    (∀ n ∈ ns, n < pyMax ns + 1) ∧ (ns = [] → pyMax ns = 0) ∧ (ns ≠ [] → pyMax ns ∈ ns) := by
  refine ⟨add_book_eq lib t a y ns h, fun n hn => ?_, fun h2 => by subst h2; rfl, pyMax_mem ns⟩
  have := mem_le_pyMax ns n hn
  omega

/-- Witness for C3 (amended) at a concrete one-book catalog. -/
theorem add_book_assigns_successor_of_max_witness :
    add_book libW "Хаджи-Мурат" "Толстой" 1912 =
      .ok ⟨save_books ⟨libW.books ++ [⟨.jnum (pyMax [1] + 1), .jstr "Хаджи-Мурат", .jstr "Толстой", .jnum 1912, .jstr "в наличии"⟩], libW.store⟩,
           [msgAdded (pyMax [1] + 1)], none⟩ :=
  (add_book_assigns_successor_of_max libW "Хаджи-Мурат" "Толстой" 1912 [1] rfl).1

/-- C3 counterexample: on the catalog whose only record has id 5,
deleting the highest id (5) and adding again assigns id 1, not 5, and
the add returns None rather than the created record. -/
theorem delete_highest_then_add_does_not_reissue :
    add_book (delete_book lib5 5).lib "Воскресение" "Толстой" 1899 =
      .ok ⟨save_books ⟨[⟨.jnum 1, .jstr "Воскресение", .jstr "Толстой", .jnum 1899, .jstr "в наличии"⟩], Store.missing⟩,
           [msgAdded 1], none⟩ ∧
    (1 : Int) ≠ 5 ∧
    (none : Option Book) ≠ some ⟨.jnum 1, .jstr "Воскресение", .jstr "Толстой", .jnum 1899, .jstr "в наличии"⟩ :=
  ⟨rfl, by omega, by simp⟩

/-- C4 (amended): update-status looks the id up first.  When no record
has the id, the not-found message is reported and nothing changes — even
when the status value is also invalid.  When the first matching record
exists: an invalid status value reports the invalid-status message with
no state change and no save, and a valid one sets the status of that record,
saves, and reports success. -/
theorem update_status_cases :
    (∀ lib : Library, ∀ i : Int, ∀ st : String,
      (∀ b ∈ lib.books, idEq b.book_id i = false) →
      update_status lib i st = ⟨lib, [msgNotFound i]⟩) ∧
    (∀ lib : Library, ∀ i : Int, ∀ st : String, ∀ pre post : List Book, ∀ b : Book,
      lib.books = pre ++ b :: post →
      (∀ b2 ∈ pre, idEq b2.book_id i = false) →
      idEq b.book_id i = true →
      st ≠ "в наличии" → st ≠ "выдана" →
      update_status lib i st = ⟨lib, [msgInvalidStatus]⟩) ∧
    (∀ lib : Library, ∀ i : Int, ∀ st : String, ∀ pre post : List Book, ∀ b : Book,
      lib.books = pre ++ b :: post →
      (∀ b2 ∈ pre, idEq b2.book_id i = false) →
      idEq b.book_id i = true →
      (st = "в наличии" ∨ st = "выдана") →
      update_status lib i st =
        ⟨save_books ⟨pre ++ ⟨b.book_id, b.title, b.author, b.year, .jstr st⟩ :: post, lib.store⟩,
         [msgUpdated i]⟩) := by
  refine ⟨?_, ?_, ?_⟩
  · intro lib i st h
    unfold update_status
    rw [updLoop_notFound lib.books i st h]
  · intro lib i st pre post b h1 h2 h3 h4 h5
    have hv : validStatus st = false := by
      simp only [validStatus, Bool.or_eq_false_iff, beq_eq_false_iff_ne, ne_eq]
      exact ⟨h4, h5⟩
    unfold update_status
    rw [h1, updLoop_skip pre (b :: post) i st h2, updLoop_found_invalid b post i st h3 hv]
  · intro lib i st pre post b h1 h2 h3 h4
    have hv : validStatus st = true := by
      rcases h4 with rfl | rfl <;> rfl
    unfold update_status
    rw [h1, updLoop_skip pre (b :: post) i st h2, updLoop_found_valid b post i st h3 hv]

/-- Witness for C4 (amended): the three cases at concrete catalogs. -/
theorem update_status_cases_witness :
    update_status emptyLib 2 "выдана" = ⟨emptyLib, [msgNotFound 2]⟩ ∧
    update_status libW 1 "утеряна" = ⟨libW, [msgInvalidStatus]⟩ ∧
    update_status libW 1 "выдана" =
      ⟨save_books ⟨[⟨bookW.book_id, bookW.title, bookW.author, bookW.year, .jstr "выдана"⟩], libW.store⟩,
       [msgUpdated 1]⟩ :=
  ⟨update_status_cases.1 emptyLib 2 "выдана" (by simp [emptyLib]),
   update_status_cases.2.1 libW 1 "утеряна" [] [] bookW rfl (by simp) rfl (by decide) (by decide),
   update_status_cases.2.2 libW 1 "выдана" [] [] bookW rfl (by simp) rfl (Or.inr rfl)⟩

/-- C4 counterexample: with an absent id and an invalid status value the
code reports not-found, not the invalid-status failure the first
clause demands. -/
theorem invalid_status_on_missing_id_reports_not_found :
    update_status emptyLib 1 "ерунда" = ⟨emptyLib, [msgNotFound 1]⟩ ∧
    msgNotFound 1 ≠ msgInvalidStatus :=
  ⟨rfl, by decide⟩

/-- C5 (amended): delete scans for the first record with the id; if
found it removes exactly that record in place, saves, and prints the
success message; if absent it prints not-found and changes nothing and
does not save.  On both paths the method returns None — success is
signalled only by the printed message, not a boolean. -/
theorem delete_book_first_match :
    (∀ lib : Library, ∀ i : Int,
      lib.books.any (fun b => idEq b.book_id i) = false →
      delete_book lib i = ⟨lib, [msgNotFound i], none⟩) ∧
    (∀ lib : Library, ∀ i : Int, ∀ pre post : List Book, ∀ b : Book,
      lib.books = pre ++ b :: post →
      (∀ b2 ∈ pre, idEq b2.book_id i = false) →
      idEq b.book_id i = true →
      delete_book lib i = ⟨save_books ⟨pre ++ post, lib.store⟩, [msgDeleted i], none⟩) := by
  constructor
  · intro lib i h
    unfold delete_book
    rw [if_neg (by simp [h])]
  · intro lib i pre post b h1 h2 h3
    unfold delete_book
    rw [h1, if_pos (by simp [List.any_append, List.any_cons, h3]),
        eraseFirstId_skip pre post b i h2 h3]

/-- Witness for C5 (amended): both cases at concrete catalogs. -/
theorem delete_book_first_match_witness :
    delete_book libW 7 = ⟨libW, [msgNotFound 7], none⟩ ∧
    delete_book lib5 5 = ⟨save_books ⟨[], lib5.store⟩, [msgDeleted 5], none⟩ :=
  ⟨delete_book_first_match.1 libW 7 rfl,
   delete_book_first_match.2 lib5 5 [] [] book5 rfl (by simp) rfl⟩

/-- C5 counterexample: a successful delete returns None, not the
boolean true the claim promises to the caller. -/
theorem delete_returns_none_not_bool :
    delete_book libW 1 = ⟨save_books ⟨[], libW.store⟩, [msgDeleted 1], none⟩ ∧
    (none : Option Bool) ≠ some true :=
  ⟨rfl, by simp⟩

/-- C6 (amended): searching on a field name that is not an attribute of
the record object at all — none of the five data fields book_id, title,
author, year, status, not one of the method names to_dict and from_dict,
and not a double-underscore special attribute name — never fails and
compares the query against the default empty string from
`getattr(book, key, "")`: it selects every record when the query value
lowercases to the empty string (e.g. the empty query) and no record
otherwise; the state is untouched.  Names that do resolve (book_id, and
the class attributes) behave differently: book_id is searchable on the
textual id, and class-attribute names compare against the text of the
resolved method object rather than the default. -/
theorem search_unknown_field (lib : Library) (f v : String)
    (h1 : f ≠ "book_id") (h2 : f ≠ "title") (h3 : f ≠ "author")
    (h4 : f ≠ "year") (h5 : f ≠ "status") (h6 : classAttrName f = false) :
    (search_books lib [(f, v)]).results = (if pyLower v = "" then lib.books else []) ∧
    (search_books lib [(f, v)]).lib = lib := by
  refine ⟨?_, search_books_lib lib [(f, v)]⟩
  rw [search_books_results]
  have hg : ∀ b : Book, getattrB b f = .jstr "" := by
    intro b
    unfold getattrB
    rw [if_neg (by simp [h1]), if_neg (by simp [h2]), if_neg (by simp [h3]),
        if_neg (by simp [h4]), if_neg (by simp [h5])]
  have hm : ∀ b : Book, matchesKV b f v = ("" == pyLower v) := by
    intro b
    rw [matchesKV, if_neg (by simp [h6]), hg]
    rfl
  simp only [List.foldl_cons, List.foldl_nil]
  rw [List.filter_congr (fun b _ => hm b)]
  by_cases hv : pyLower v = ""
  · rw [if_pos hv, hv]
    simp
  · rw [if_neg hv]
    have hfalse : ("" == pyLower v) = false := by
      simp only [beq_eq_false_iff_ne, ne_eq]
      exact fun hh => hv hh.symm
    simp [hfalse]

/-- Witness for C6 (amended) at a nonempty query over a concrete catalog. -/
theorem search_unknown_field_witness :
    (search_books libW [("publisher", "x")]).results = [] ∧
    (search_books libW [("publisher", "x")]).lib = libW := by
  have h := search_unknown_field libW "publisher" "x"
    (by decide) (by decide) (by decide) (by decide) (by decide) (by decide)
  rwa [if_neg (by decide)] at h

/-- C6 counterexample: an unrecognized field name with an empty query
value selects every record instead of none, and the field name book_id
— outside the recognized set of the spec — is searchable and selects the
matching record. -/
theorem search_unknown_field_cex :
    (search_books libW [("publisher", "")]).results = [bookW] ∧
    (search_books libW [("book_id", "1")]).results = [bookW] ∧
    ([bookW] : List Book) ≠ [] :=
  ⟨rfl, rfl, by simp⟩

/-- C7: for each recognized field (title, author, year, status), search
selects exactly the records whose field value converted to text equals
the query value under case-insensitive exact comparison, in catalog
order; and two queries with the same lowercasing — such as "Tolstoy" and
"tolstoy" — give identical results. -/
theorem search_recognized_exact_case_insensitive :
    (∀ lib : Library, ∀ f v : String,
      (f = "title" ∨ f = "author" ∨ f = "year" ∨ f = "status") →
      (search_books lib [(f, v)]).results =
        lib.books.filter (fun b => pyLower (pyStr (specField b f)) == pyLower v)) ∧
    (∀ lib : Library, ∀ f v w : String, pyLower v = pyLower w →
      (search_books lib [(f, v)]).results = (search_books lib [(f, w)]).results) := by
  constructor
  · intro lib f v hf
    rw [search_books_results]
    rcases hf with rfl | rfl | rfl | rfl <;> rfl
  · intro lib f v w h
    rw [search_books_results, search_books_results]
    simp only [List.foldl_cons, List.foldl_nil]
    apply List.filter_congr
    intro b hb
    simp only [matchesKV, h]

/-- Witness for C7: the Tolstoy/tolstoy author query on a concrete
catalog. -/
theorem search_recognized_exact_case_insensitive_witness :
    (search_books libW [("author", "Tolstoy")]).results =
      libW.books.filter (fun b => pyLower (pyStr (specField b "author")) == pyLower "Tolstoy") ∧
    (search_books libW [("author", "Tolstoy")]).results =
      (search_books libW [("author", "tolstoy")]).results :=
  ⟨search_recognized_exact_case_insensitive.1 libW "author" "Tolstoy" (Or.inr (Or.inl rfl)),
   search_recognized_exact_case_insensitive.2 libW "author" "Tolstoy" "tolstoy" (by decide)⟩

/-- C8: every catalog reachable from the empty one by add, delete and
update-status operations has pairwise distinct integer ids, and the next
add assigns (max existing id, or 0 if empty) + 1, keeping the ids
distinct. -/
theorem catalog_ids_pairwise_distinct (lib : Library) (h : Reachable lib) :
    ∃ ns : List Int, lib.books.map Book.book_id = ns.map Json.jnum ∧ ns.Nodup ∧
      ∀ t a : String, ∀ y : Int,
        add_book lib t a y =
          .ok ⟨save_books ⟨lib.books ++ [⟨.jnum (pyMax ns + 1), .jstr t, .jstr a, .jnum y, .jstr "в наличии"⟩], lib.store⟩,
               [msgAdded (pyMax ns + 1)], none⟩ ∧
        (ns ++ [pyMax ns + 1]).Nodup := by
  obtain ⟨ns, hm, hn⟩ := reachable_inv lib h
  have hx : pyMax ns + 1 ∉ ns := fun hmem => by
    have := mem_le_pyMax ns _ hmem
    omega
  exact ⟨ns, hm, hn, fun t a y =>
    ⟨add_book_eq lib t a y ns hm, by simp [List.nodup_append, hn, hx]⟩⟩

/-- Witness for C8 at the empty catalog. -/
theorem catalog_ids_pairwise_distinct_witness :
    ∃ ns : List Int, emptyLib.books.map Book.book_id = ns.map Json.jnum ∧ ns.Nodup ∧
      ∀ t a : String, ∀ y : Int,
        add_book emptyLib t a y =
          .ok ⟨save_books ⟨emptyLib.books ++ [⟨.jnum (pyMax ns + 1), .jstr t, .jstr a, .jnum y, .jstr "в наличии"⟩], emptyLib.store⟩,
               [msgAdded (pyMax ns + 1)], none⟩ ∧
        (ns ++ [pyMax ns + 1]).Nodup :=
  catalog_ids_pairwise_distinct emptyLib Reachable.start

/-- C9: search and display leave the whole state (records and store)
unchanged; a successful add always leaves the store holding exactly the
serialized record list, and delete and update-status either leave the
state entirely unchanged (failure) or leave the store persisted
(success). -/
theorem read_only_ops_do_not_persist :
    (∀ lib : Library, ∀ kw : List (String × String), (search_books lib kw).lib = lib) ∧
    (∀ lib : Library, ∀ arg : Option (List Book), (display_books lib arg).lib = lib) ∧
    (∀ lib : Library, ∀ t a : String, ∀ y : Int, ∀ r : AddResult,
      add_book lib t a y = .ok r → persisted r.lib) ∧
    (∀ lib : Library, ∀ i : Int,
      (delete_book lib i).lib = lib ∨ persisted (delete_book lib i).lib) ∧
    (∀ lib : Library, ∀ i : Int, ∀ st : String,
      (update_status lib i st).lib = lib ∨ persisted (update_status lib i st).lib) := by
  refine ⟨search_books_lib, fun lib arg => rfl, ?_, ?_, ?_⟩
  · intro lib t a y r h
    unfold add_book at h
    rcases h2 : idsOf lib.books with _ | ns
    · rw [h2] at h
      cases h
    · rw [h2] at h
      simp only at h
      have := Except.ok.inj h
      rw [← this]
      rfl
  · intro lib i
    unfold delete_book
    by_cases h : lib.books.any (fun b => idEq b.book_id i) = true
    · rw [if_pos h]
      exact Or.inr rfl
    · rw [if_neg h]
      exact Or.inl rfl
  · intro lib i st
    unfold update_status
    rcases hu : updLoop lib.books i st with ⟨bs2, o⟩
    cases o
    · exact Or.inr rfl
    · exact Or.inl rfl
    · exact Or.inl rfl

/-- Witness for C9: the add conjunct applied at the empty catalog (and
the two read-only conjuncts at a concrete catalog). -/
theorem read_only_ops_do_not_persist_witness :
    (search_books libW [("author", "Tolstoy")]).lib = libW ∧
    (display_books libW none).lib = libW ∧
    persisted (save_books ⟨emptyLib.books ++ [⟨.jnum 1, .jstr "t", .jstr "a", .jnum 2000, .jstr "в наличии"⟩], emptyLib.store⟩) :=
  ⟨read_only_ops_do_not_persist.1 libW [("author", "Tolstoy")],
   read_only_ops_do_not_persist.2.1 libW none,
   read_only_ops_do_not_persist.2.2.1 emptyLib "t" "a" 2000 _ rfl⟩

/-- C10: search accepts any number of criteria and selects exactly the
records satisfying the conjunction of all per-criterion case-insensitive
textual equality tests, in catalog order; with zero criteria it selects
every record. -/
theorem search_multi_criteria_conjunction :
    (∀ lib : Library, ∀ kwargs : List (String × String),
      (search_books lib kwargs).results =
        lib.books.filter (fun b => kwargs.all (fun kv => matchesKV b kv.1 kv.2))) ∧
    (∀ lib : Library, (search_books lib []).results = lib.books) := by
  constructor
  · intro lib kwargs
    rw [search_books_results, foldl_filter]
  · intro lib
    rw [search_books_results]
    rfl
